import Mathlib

/-!
Shallow embedding of the AXP20x PMIC battery driver
(`drivers/power/axp20x_fuel_gauge.c`) and proofs about its periodic poll,
charge-current policy, property accessors and interrupt handlers.

Register reads go through the external `regmap` collaborator and may fail;
a readable register is modelled as `Option Nat` (`none` = the read fails,
`some v` = the read succeeds and yields the 8-bit, or composed 12-bit,
value `v`).  Errno constants are modelled as the negative integers the
driver returns; the concrete errno of a failed `regmap` call is owned by
the external collaborator and is modelled by the fixed value `IOERR`.
C `int` arithmetic is modelled on `Int`, with `Int.tdiv` for C's
truncating division and `Int.emod _ 16` for the masking of a (possibly
negative) value by `0x0f` inside `regmap_update_bits`.
-/

namespace Axp20x

/-- Bit 7 of AXP20X_PWR_INPUT_STATUS: mains (AC) input present. -/
def AXP20X_PWR_STATUS_AC_PRESENT : Nat := 128

/-- Bit 6 of AXP20X_PWR_INPUT_STATUS: mains (AC) input available. -/
def AXP20X_PWR_STATUS_AC_AVAILABLE : Nat := 64

/-- Bit 5 of AXP20X_PWR_INPUT_STATUS: VBUS input present. -/
def AXP20X_PWR_STATUS_VBUS_PRESENT : Nat := 32

/-- Bit 4 of AXP20X_PWR_INPUT_STATUS: VBUS input available. -/
def AXP20X_PWR_STATUS_VBUS_AVAILABLE : Nat := 16

/-- Bit 2 of AXP20X_PWR_INPUT_STATUS: battery currently charging. -/
def AXP20X_PWR_STATUS_BAT_CHARGING : Nat := 4

/-- Bit 6 of AXP20X_PWR_OP_MODE: charging enabled. -/
def AXP20X_PWR_OP_CHARGING : Nat := 64

/-- Bit 5 of AXP20X_PWR_OP_MODE: battery present. -/
def AXP20X_PWR_OP_BATT_PRESENT : Nat := 32

/-- Low two bits of AXP20X_VBUS_IPSOUT_MGMT: VBUS current-limit field. -/
def AXP20X_VBUS_CLIMIT_MASK : Nat := 3

/-- VBUS current-limit field value selecting the 900 mA limit. -/
def AXP20X_VBUC_CLIMIT_900mA : Nat := 0

/-- VBUS current-limit field value selecting the 500 mA limit. -/
def AXP20X_VBUC_CLIMIT_500mA : Nat := 1

/-- VBUS current-limit field value selecting the 100 mA limit. -/
def AXP20X_VBUC_CLIMIT_100mA : Nat := 2

/-- VBUS current-limit field value selecting no limit. -/
def AXP20X_VBUC_CLIMIT_NONE : Nat := 3

/-- Bits 5-6 of AXP20X_CHRG_CTRL1: target charge voltage field. -/
def AXP20X_CHRG_CTRL1_TGT_VOLT : Nat := 96

/-- Target-voltage field value for 4.1 V. -/
def AXP20X_CHRG_CTRL1_TGT_4_1V : Nat := 0

/-- Target-voltage field value for 4.15 V. -/
def AXP20X_CHRG_CTRL1_TGT_4_15V : Nat := 32

/-- Target-voltage field value for 4.2 V. -/
def AXP20X_CHRG_CTRL1_TGT_4_2V : Nat := 64

/-- Target-voltage field value for 4.36 V. -/
def AXP20X_CHRG_CTRL1_TGT_4_36V : Nat := 96

/-- Low four bits of AXP20X_CHRG_CTRL1: target charge-current field. -/
def AXP20X_CHRG_CTRL1_TGT_CURR : Nat := 15

/-- Low seven bits of AXP20X_FG_RES: fuel-gauge percent. -/
def AXP20X_FG_PERCENT : Nat := 127

/-- Errno modelling a failed register access, as propagated by regmap. -/
def IOERR : Int := -5

/-- Errno for an invalid argument, returned by the driver as `-EINVAL`. -/
def EINVAL : Int := 22

/-- Errno for a busy resource, returned by the driver as `-EBUSY`. -/
def EBUSY : Int := 16

/-- Battery health values cached in `power->health`
(POWER_SUPPLY_HEALTH_*). -/
inductive Health where
  | unknown
  | good
  | dead
  | cold
  | overheat
  deriving DecidableEq, Repr

/-- The readable device registers touched by the modelled operations.
`none` models a failing register read (`regmap_read` /
`axp20x_read_variable_width` returning an error); `some v` a successful
read yielding `v`.  `battV`, `battChrgI` and `battDischrgI` are the
12-bit variable-width reads at AXP20X_BATT_V_H, AXP20X_BATT_CHRG_I_H and
AXP20X_BATT_DISCHRG_I_H. -/
structure Device where
  pwrInputStatus : Option Nat
  pwrOpMode : Option Nat
  battV : Option Nat
  fgRes : Option Nat
  vbusMgmt : Option Nat
  chrgCtrl1 : Option Nat
  battChrgI : Option Nat
  battDischrgI : Option Nat
  deriving DecidableEq, Repr

/-- The driver-private state `struct axp20x_battery_power` (the fields the
modelled operations use).  `capacity` is `power->capacity` in µAh,
`chargeUserImax` is `power->charge_user_imax` in µA, `tbattMin`/`tbattMax`
are the raw temperature-ADC bounds. -/
structure Driver where
  health : Health
  percent : Nat
  capacity : Int
  chargeUserImax : Int
  tbattMin : Int
  tbattMax : Int
  deriving DecidableEq, Repr

/-- Result of one poll cycle: the updated driver state and whether
`power_supply_changed` was called. -/
structure PollResult where
  driver : Driver
  notified : Bool
  deriving DecidableEq, Repr

/-- Result of `axp20x_battery_chg_reconfig`: the device after any
register writes, whether `power_supply_changed` was called, and the
4-bit value handed to the AXP20X_CHRG_CTRL1 target-current write
(`none` when no current-register write was issued). -/
structure ReconfigResult where
  device : Device
  notified : Bool
  written : Option Nat
  deriving DecidableEq, Repr

/-- Result of an interrupt handler: updated driver state, updated device,
and whether `power_supply_changed` was called. -/
structure EventResult where
  driver : Driver
  device : Device
  notified : Bool
  deriving DecidableEq, Repr

/-- `regmap_update_bits` value computation on one register value:
clear the `mask` bits of `x`, then install `val &&& mask`. -/
def updateBits (x mask val : Nat) : Nat :=
  x - (x &&& mask) + (val &&& mask)

/-- `regmap_update_bits` on a readable register: the internal read-modify
-write fails (leaving the register alone) when the read fails. -/
def regmapUpdateBits (r : Option Nat) (mask val : Nat) : Option Nat :=
  r.map (fun x => updateBits x mask val)

/-- Return value of `regmap_update_bits`: 0 on success, the propagated
errno when the internal read fails. -/
def regmapUpdateBitsRet (r : Option Nat) : Int :=
  match r with
  | none => IOERR
  | some _ => 0

/-- The tail of `axp20x_battery_poll` from label `out:`: store the
freshly computed health/percent pair and notify iff either member
differs from the cached pair. -/
def pollOut (p : Driver) (health : Health) (percent : Nat) : PollResult :=
  if p.health ≠ health ∨ p.percent ≠ percent then
    ⟨{ p with health := health, percent := percent }, true⟩
  else
    ⟨p, false⟩

/-- One cycle of `axp20x_battery_poll`: start from health = Unknown,
percent = 0; abort with no effect if AXP20X_PWR_OP_MODE cannot be read;
if the battery is absent keep (Unknown, 0); otherwise apply the
dead-voltage check, the fuel-gauge percent read, and — when a
temperature range is configured — the out-of-bound temperature checks
(which assign health after the dead check), then store and notify via
`pollOut`. -/
def axp20x_battery_poll (p : Driver) (d : Device) : PollResult :=
  match d.pwrOpMode with
  | none => ⟨p, false⟩
  | some reg =>
    if reg &&& AXP20X_PWR_OP_BATT_PRESENT = 0 then
      pollOut p Health.unknown 0
    else
      let health :=
        match d.battV with
        | some v =>
          if (v : Int) * 1100 < 2000000 then Health.dead else Health.unknown
        | none => Health.unknown
      let percent :=
        match d.fgRes with
        | some r => r &&& AXP20X_FG_PERCENT
        | none => 0
      let health :=
        if p.tbattMin ≠ 0 ∨ p.tbattMax ≠ 0 then
          match d.battV with
          | some v =>
            if (v : Int) < p.tbattMin then Health.cold
            else if (v : Int) > p.tbattMax then Health.overheat
            else health
          | none => health
        else health
      pollOut p health percent

/-- `axp20x_battery_max_chg_current`: the maximum permissible charge
current in µA, or a negative errno when a needed register read fails. -/
def axp20x_battery_max_chg_current (p : Driver) (d : Device) : Int :=
  match d.pwrInputStatus with
  | none => IOERR
  | some status =>
    if status &&& AXP20X_PWR_STATUS_AC_PRESENT ≠ 0 ∧
       status &&& AXP20X_PWR_STATUS_AC_AVAILABLE ≠ 0 then
      Int.tdiv p.capacity 2
    else if status &&& AXP20X_PWR_STATUS_VBUS_PRESENT ≠ 0 ∧
            status &&& AXP20X_PWR_STATUS_VBUS_AVAILABLE ≠ 0 then
      match d.vbusMgmt with
      | none => IOERR
      | some vbusmgt =>
        if vbusmgt &&& AXP20X_VBUS_CLIMIT_MASK = AXP20X_VBUC_CLIMIT_100mA then
          0
        else if vbusmgt &&& AXP20X_VBUS_CLIMIT_MASK = AXP20X_VBUC_CLIMIT_500mA then
          300000
        else if vbusmgt &&& AXP20X_VBUS_CLIMIT_MASK = AXP20X_VBUC_CLIMIT_900mA then
          600000
        else if vbusmgt &&& AXP20X_VBUS_CLIMIT_MASK = AXP20X_VBUC_CLIMIT_NONE then
          Int.tdiv p.capacity 2
        else
          0
    else
      0

/-- `axp20x_battery_chg_reconfig`: recompute the maximum charge current;
return silently on error; disable charging when it is 0; otherwise write
the clamped 4-bit current field and enable charging; notify at the end of
every non-error path. -/
def axp20x_battery_chg_reconfig (p : Driver) (d : Device) : ReconfigResult :=
  let charge_max := axp20x_battery_max_chg_current p d
  if charge_max < 0 then
    ⟨d, false, none⟩
  else if charge_max = 0 then
    ⟨{ d with pwrOpMode := regmapUpdateBits d.pwrOpMode AXP20X_PWR_OP_CHARGING 0 },
     true, none⟩
  else
    let charge_max := if p.chargeUserImax < charge_max then p.chargeUserImax
                      else charge_max
    let charge_max := if Int.tdiv (charge_max - 300000) 100000 > 15 then
                        300000 + 15 * 100000
                      else charge_max
    let fld := (Int.emod (Int.tdiv (charge_max - 300000) 100000) 16).toNat
    ⟨{ d with
        chrgCtrl1 := regmapUpdateBits d.chrgCtrl1 AXP20X_CHRG_CTRL1_TGT_CURR fld,
        pwrOpMode := regmapUpdateBits d.pwrOpMode AXP20X_PWR_OP_CHARGING
                       AXP20X_PWR_OP_CHARGING },
     true, some fld⟩

/-- The POWER_SUPPLY_PROP_CURRENT_MAX case of
`axp20x_battery_power_set_property`: reject values whose current field
would exceed 0x0f and values below 300000 µA; otherwise store the new
user ceiling, run `axp20x_battery_chg_reconfig` and return 0. -/
def prop_set_current_max (p : Driver) (d : Device) (v : Int) :
    Driver × Device × Int :=
  if Int.tdiv (v - 300000) 100000 > 15 then
    (p, d, -EINVAL)
  else if v < 300000 then
    (p, d, -EINVAL)
  else
    let p' := { p with chargeUserImax := v }
    (p', (axp20x_battery_chg_reconfig p' d).device, 0)

/-- The POWER_SUPPLY_PROP_VOLTAGE_MAX_DESIGN case of
`axp20x_battery_power_set_property`: accept exactly 4100000, 4150000 and
4200000 µV, writing the matching target-voltage field; 4360000 falls
through to the default and is refused with `-EINVAL`. -/
def prop_set_voltage_max_design (d : Device) (v : Int) : Device × Int :=
  if v = 4100000 then
    ({ d with chrgCtrl1 := regmapUpdateBits d.chrgCtrl1
                AXP20X_CHRG_CTRL1_TGT_VOLT AXP20X_CHRG_CTRL1_TGT_4_1V },
     regmapUpdateBitsRet d.chrgCtrl1)
  else if v = 4150000 then
    ({ d with chrgCtrl1 := regmapUpdateBits d.chrgCtrl1
                AXP20X_CHRG_CTRL1_TGT_VOLT AXP20X_CHRG_CTRL1_TGT_4_15V },
     regmapUpdateBitsRet d.chrgCtrl1)
  else if v = 4200000 then
    ({ d with chrgCtrl1 := regmapUpdateBits d.chrgCtrl1
                AXP20X_CHRG_CTRL1_TGT_VOLT AXP20X_CHRG_CTRL1_TGT_4_2V },
     regmapUpdateBitsRet d.chrgCtrl1)
  else
    (d, -EINVAL)

/-- The POWER_SUPPLY_PROP_VOLTAGE_MAX_DESIGN case of
`axp20x_battery_power_get_property`: decode the target-voltage field of
AXP20X_CHRG_CTRL1 into µV. -/
def prop_get_voltage_max_design (d : Device) : Option Int :=
  d.chrgCtrl1.map (fun reg =>
    if reg &&& AXP20X_CHRG_CTRL1_TGT_VOLT = AXP20X_CHRG_CTRL1_TGT_4_1V then
      4100000
    else if reg &&& AXP20X_CHRG_CTRL1_TGT_VOLT = AXP20X_CHRG_CTRL1_TGT_4_15V then
      4150000
    else if reg &&& AXP20X_CHRG_CTRL1_TGT_VOLT = AXP20X_CHRG_CTRL1_TGT_4_2V then
      4200000
    else
      4360000)

/-- The identity placeholder `axp20x_battery_uv_to_temp` (its µV-to-°C
conversion is marked TODO in the source and returns its input). -/
def axp20x_battery_uv_to_temp (uv : Int) : Int := uv

/-- The POWER_SUPPLY_PROP_VOLTAGE_NOW case of
`axp20x_battery_power_get_property`: 12-bit raw battery voltage times
1100 µV per step; a failed read propagates (`none`). -/
def prop_get_voltage_now (d : Device) : Option Int :=
  d.battV.map (fun reg => (reg : Int) * 1100)

/-- The POWER_SUPPLY_PROP_CURRENT_NOW case of
`axp20x_battery_power_get_property`: pick the charge- or discharge-
current ADC depending on the charging status bit, times 500 µA per
step; a failed read propagates (`none`). -/
def prop_get_current_now (d : Device) : Option Int :=
  match d.pwrInputStatus with
  | none => none
  | some status =>
    let raw := if status &&& AXP20X_PWR_STATUS_BAT_CHARGING ≠ 0 then
                 d.battChrgI
               else
                 d.battDischrgI
    raw.map (fun reg => (reg : Int) * 500)

/-- The POWER_SUPPLY_PROP_TEMP case of
`axp20x_battery_power_get_property`: 12-bit raw value times 800 µV per
step, passed through `axp20x_battery_uv_to_temp`. -/
def prop_get_temp (d : Device) : Option Int :=
  d.battV.map (fun reg => axp20x_battery_uv_to_temp ((reg : Int) * 800))

/-- The hardware events with a dedicated interrupt handler. -/
inductive BattEvent where
  | plugin
  | removal
  | activation
  | activated
  | charging
  | charged
  | highTemp
  | lowTemp
  | chgCurrLow
  | powerLow
  | powerLowCrit
  deriving DecidableEq, Repr

/-- The interrupt handlers `axp20x_irq_batt_*` and `axp20x_irq_power_*`,
one case per handler, each translated from its body: optional health
assignment, optional AXP20X_PWR_OP_CHARGING update, then an
unconditional `power_supply_changed`. -/
def handleEvent (e : BattEvent) (p : Driver) (d : Device) : EventResult :=
  match e with
  | .plugin =>
    ⟨{ p with health := Health.unknown },
     { d with pwrOpMode := regmapUpdateBits d.pwrOpMode AXP20X_PWR_OP_CHARGING
                AXP20X_PWR_OP_CHARGING },
     true⟩
  | .removal =>
    ⟨{ p with health := Health.unknown },
     { d with pwrOpMode := regmapUpdateBits d.pwrOpMode AXP20X_PWR_OP_CHARGING 0 },
     true⟩
  | .activation => ⟨{ p with health := Health.unknown }, d, true⟩
  | .activated => ⟨{ p with health := Health.good }, d, true⟩
  | .charging => ⟨p, d, true⟩
  | .charged => ⟨p, d, true⟩
  | .highTemp =>
    ⟨{ p with health := Health.overheat },
     { d with pwrOpMode := regmapUpdateBits d.pwrOpMode AXP20X_PWR_OP_CHARGING 0 },
     true⟩
  | .lowTemp => ⟨{ p with health := Health.cold }, d, true⟩
  | .chgCurrLow => ⟨p, d, true⟩
  | .powerLow => ⟨p, d, true⟩
  | .powerLowCrit => ⟨p, d, true⟩

/-- Charge-current table as the specification states it: mains present
and available gives `capacity_design / 2`; otherwise bus present and
available gives the tier selected by the bus current-limit field
(100 mA field forbids charging, 500 mA field gives 300000 µA, 900 mA
field gives 600000 µA, the unlimited field gives `capacity_design / 2`);
otherwise 0; a failed read of a register the computation needs
propagates as an I/O error. -/
def spec_max_charge_current (capacityDesign : Int)
    (statusRead vbusRead : Option Nat) : Int :=
  match statusRead with
  | none => IOERR
  | some st =>
    if st &&& 128 ≠ 0 ∧ st &&& 64 ≠ 0 then
      Int.tdiv capacityDesign 2
    else if st &&& 32 ≠ 0 ∧ st &&& 16 ≠ 0 then
      match vbusRead with
      | none => IOERR
      | some vm =>
        match vm % 4 with
        | 2 => 0
        | 1 => 300000
        | 0 => 600000
        | _ => Int.tdiv capacityDesign 2
    else
      0

/-- Health effect of each hardware event, as the table in §4.4 of the
specification states it. -/
def spec_event_health (e : BattEvent) (h : Health) : Health :=
  match e with
  | .plugin => Health.unknown
  | .removal => Health.unknown
  | .activation => Health.unknown
  | .activated => Health.good
  | .highTemp => Health.overheat
  | .lowTemp => Health.cold
  | _ => h

/-- Register effect of each hardware event on AXP20X_PWR_OP_MODE, as the
table in §4.4 of the specification states it: insertion enables the
charging bit, removal and overheat clear it, everything else leaves the
register alone. -/
def spec_event_reg (e : BattEvent) (r : Option Nat) : Option Nat :=
  match e with
  | .plugin => regmapUpdateBits r AXP20X_PWR_OP_CHARGING AXP20X_PWR_OP_CHARGING
  | .removal => regmapUpdateBits r AXP20X_PWR_OP_CHARGING 0
  | .highTemp => regmapUpdateBits r AXP20X_PWR_OP_CHARGING 0
  | _ => r

/-- User-ceiling step of `axp20x_battery_chg_reconfig`:
`min(charge_max, user_current_ceiling)`. -/
def chgUserMin (p : Driver) (chargeMax : Int) : Int :=
  if p.chargeUserImax < chargeMax then p.chargeUserImax else chargeMax

/-- Clamp step of `axp20x_battery_chg_reconfig`: cap at
300000 + 15 × 100000 µA when the current field would exceed 0x0f. -/
def chgClamp (chargeMax : Int) : Int :=
  if Int.tdiv (chargeMax - 300000) 100000 > 15 then 300000 + 15 * 100000
  else chargeMax

/-- The 4-bit current-field value `axp20x_battery_chg_reconfig` hands to
the AXP20X_CHRG_CTRL1 write for a given clamped charge current: C's
truncating `(charge_max - 300000) / 100000`, reduced to its low four
bits by the register mask. -/
def chgCurrField (chargeMax : Int) : Nat :=
  (Int.emod (Int.tdiv (chargeMax - 300000) 100000) 16).toNat

/-- The current-field write of `axp20x_battery_chg_reconfig` as a
function of the recomputed maximum charge current alone. -/
def chgWrittenOf (p : Driver) (chargeMax : Int) : Option Nat :=
  if chargeMax < 0 then none
  else if chargeMax = 0 then none
  else some (chgCurrField (chgClamp (chgUserMin p chargeMax)))

/- ------------------------------------------------------------------ -/
/- Helper lemmas                                                       -/
/- ------------------------------------------------------------------ -/

theorem pollOut_driver_health (p : Driver) (h : Health) (pc : Nat) :
    (pollOut p h pc).driver.health = h := by
  unfold pollOut
  split
  · rfl
  · next hcond =>
    push_neg at hcond
    exact hcond.1

theorem pollOut_driver_percent (p : Driver) (h : Health) (pc : Nat) :
    (pollOut p h pc).driver.percent = pc := by
  unfold pollOut
  split
  · rfl
  · next hcond =>
    push_neg at hcond
    exact hcond.2

theorem pollOut_notified_iff (p : Driver) (h : Health) (pc : Nat) :
    (pollOut p h pc).notified = true ↔
      ((pollOut p h pc).driver.health ≠ p.health ∨
       (pollOut p h pc).driver.percent ≠ p.percent) := by
  unfold pollOut
  split
  · next hcond =>
    constructor
    · intro _
      rcases hcond with hh | hp
      · exact Or.inl (Ne.symm hh)
      · exact Or.inr (Ne.symm hp)
    · intro _
      rfl
  · next hcond =>
    push_neg at hcond
    constructor
    · intro hfalse
      exact (Bool.false_ne_true hfalse).elim
    · intro hor
      rcases hor with hh | hp
      · exact absurd rfl hh
      · exact absurd rfl hp

theorem chg_reconfig_written_eq (p : Driver) (d : Device) :
    (axp20x_battery_chg_reconfig p d).written =
      chgWrittenOf p (axp20x_battery_max_chg_current p d) := by
  simp only [axp20x_battery_chg_reconfig, chgWrittenOf, chgCurrField, chgClamp,
    chgUserMin]
  split
  · rfl
  · split <;> rfl

theorem chg_reconfig_preserves_status (p : Driver) (d : Device) :
    (axp20x_battery_chg_reconfig p d).device.pwrInputStatus = d.pwrInputStatus ∧
    (axp20x_battery_chg_reconfig p d).device.vbusMgmt = d.vbusMgmt := by
  constructor <;>
  · simp only [axp20x_battery_chg_reconfig]
    split
    · rfl
    · split <;> rfl

theorem max_chg_current_congr (p : Driver) (d d' : Device)
    (hs : d.pwrInputStatus = d'.pwrInputStatus)
    (hv : d.vbusMgmt = d'.vbusMgmt) :
    axp20x_battery_max_chg_current p d = axp20x_battery_max_chg_current p d' := by
  unfold axp20x_battery_max_chg_current
  rw [hs, hv]

/- ------------------------------------------------------------------ -/
/- Claim theorems                                                      -/
/- ------------------------------------------------------------------ -/

/-- C3: for every combination of source-status bits and bus
current-limit field, `axp20x_battery_max_chg_current` returns exactly
the §4.3 table: `capacity_design / 2` when mains is present and
available, the {100 mA → 0, 500 mA → 300000 µA, 900 mA → 600000 µA,
unlimited → `capacity_design / 2`} tier when the bus source is present
and available, 0 on battery, and a propagated I/O error on any needed
register read failure with no default substituted. -/
theorem max_chg_current_matches_spec (p : Driver) (d : Device) :
    axp20x_battery_max_chg_current p d =
      spec_max_charge_current p.capacity d.pwrInputStatus d.vbusMgmt := by
  unfold axp20x_battery_max_chg_current spec_max_charge_current
  cases d.pwrInputStatus with
  | none => rfl
  | some st =>
    simp only [AXP20X_PWR_STATUS_AC_PRESENT, AXP20X_PWR_STATUS_AC_AVAILABLE,
      AXP20X_PWR_STATUS_VBUS_PRESENT, AXP20X_PWR_STATUS_VBUS_AVAILABLE,
      AXP20X_VBUS_CLIMIT_MASK, AXP20X_VBUC_CLIMIT_100mA,
      AXP20X_VBUC_CLIMIT_500mA, AXP20X_VBUC_CLIMIT_900mA,
      AXP20X_VBUC_CLIMIT_NONE]
    split_ifs with hac hvbus
    · rfl
    · cases d.vbusMgmt with
      | none => rfl
      | some vm =>
        show (if vm &&& 3 = 2 then (0 : Int)
              else if vm &&& 3 = 1 then 300000
              else if vm &&& 3 = 0 then 600000
              else if vm &&& 3 = 3 then Int.tdiv p.capacity 2
              else 0) =
          (match vm % 4 with
            | 2 => (0 : Int)
            | 1 => 300000
            | 0 => 600000
            | _ => Int.tdiv p.capacity 2)
        have hm : vm &&& 3 = vm % 4 := by
          have h := Nat.and_pow_two_sub_one_eq_mod vm 2
          norm_num at h
          exact h
        rw [hm]
        have h4 : vm % 4 < 4 := Nat.mod_lt _ (by norm_num)
        set k := vm % 4 with hk
        interval_cases k <;> simp
    · rfl

/-- C7: every interrupt handler applies exactly the state effect and
the AXP20X_PWR_OP_CHARGING register effect of the §4.4 event table,
leaves the cached percent alone, and unconditionally concludes by
notifying the telemetry consumer. -/
theorem irq_handlers_match_table (e : BattEvent) (p : Driver) (d : Device) :
    handleEvent e p d =
      ⟨{ p with health := spec_event_health e p.health },
       { d with pwrOpMode := spec_event_reg e d.pwrOpMode }, true⟩ := by
  cases e <;> rfl

/-- C9: calling `axp20x_battery_chg_reconfig` twice in a row, with no
register change other than the writes of the first call, issues the
same 4-bit current-field write both times. -/
theorem chg_reconfig_idempotent_written (p : Driver) (d : Device) :
    (axp20x_battery_chg_reconfig p
        (axp20x_battery_chg_reconfig p d).device).written =
      (axp20x_battery_chg_reconfig p d).written := by
  rw [chg_reconfig_written_eq, chg_reconfig_written_eq,
    max_chg_current_congr p (axp20x_battery_chg_reconfig p d).device d
      (chg_reconfig_preserves_status p d).1
      (chg_reconfig_preserves_status p d).2]

/-- C4 counterexample: a poll-status read failure makes
`axp20x_battery_chg_reconfig` return early with no register write and no
notification, contradicting the claim that every call concludes by
notifying the telemetry consumer. -/
theorem chg_reconfig_missing_notify_counterexample :
    (axp20x_battery_chg_reconfig ⟨Health.good, 55, 2000000, 300000, 0, 0⟩
        ⟨none, some 32, some 2000, some 55, some 0, some 0, some 0, some 0⟩).notified
      = false := by decide

/-- C4 (amended): every call to `axp20x_battery_chg_reconfig` recomputes
`axp20x_battery_max_chg_current`; if that recomputation fails (negative
errno) the call returns with no register write and no notification;
when it yields 0 the call clears the charging-enable bit, performs no
current-register write, and notifies; when it is positive the call
writes the 4-bit field obtained from min(max, user ceiling), clamped to
at most 300000 + 15 × 100000 µA, by C's truncating division
`(x - 300000) / 100000` masked to four bits, sets the charging-enable
bit, and notifies. -/
theorem chg_reconfig_contract (p : Driver) (d : Device) :
    (axp20x_battery_max_chg_current p d < 0 →
      axp20x_battery_chg_reconfig p d = ⟨d, false, none⟩) ∧
    (axp20x_battery_max_chg_current p d = 0 →
      axp20x_battery_chg_reconfig p d =
        ⟨{ d with pwrOpMode :=
             regmapUpdateBits d.pwrOpMode AXP20X_PWR_OP_CHARGING 0 },
         true, none⟩) ∧
    (0 < axp20x_battery_max_chg_current p d →
      axp20x_battery_chg_reconfig p d =
        ⟨{ d with
            chrgCtrl1 := regmapUpdateBits d.chrgCtrl1 AXP20X_CHRG_CTRL1_TGT_CURR
              (chgCurrField (chgClamp (chgUserMin p
                (axp20x_battery_max_chg_current p d)))),
            pwrOpMode := regmapUpdateBits d.pwrOpMode AXP20X_PWR_OP_CHARGING
              AXP20X_PWR_OP_CHARGING },
         true,
         some (chgCurrField (chgClamp (chgUserMin p
           (axp20x_battery_max_chg_current p d))))⟩) := by
  refine ⟨fun hneg => ?_, fun hzero => ?_, fun hpos => ?_⟩
  · simp only [axp20x_battery_chg_reconfig]
    rw [if_pos hneg]
  · simp only [axp20x_battery_chg_reconfig]
    rw [if_neg (by omega), if_pos hzero]
  · simp only [axp20x_battery_chg_reconfig, chgCurrField, chgClamp, chgUserMin]
    rw [if_neg (by omega), if_neg (by omega)]

/-- C4 witness: on battery (no external source) the recomputed maximum
is 0 and the call clears the charging bit, writes no current field, and
notifies. -/
theorem chg_reconfig_contract_witness :
    axp20x_battery_max_chg_current ⟨Health.good, 55, 2000000, 300000, 0, 0⟩
        ⟨some 0, some 32, some 2000, some 55, some 0, some 0, some 0, some 0⟩ = 0 ∧
    axp20x_battery_chg_reconfig ⟨Health.good, 55, 2000000, 300000, 0, 0⟩
        ⟨some 0, some 32, some 2000, some 55, some 0, some 0, some 0, some 0⟩ =
      ⟨⟨some 0, some 32, some 2000, some 55, some 0, some 0, some 0, some 0⟩,
       true, none⟩ :=
  ⟨by decide,
   (chg_reconfig_contract ⟨Health.good, 55, 2000000, 300000, 0, 0⟩
      ⟨some 0, some 32, some 2000, some 55, some 0, some 0, some 0, some 0⟩).2.1
     (by decide)⟩

/-- C5 counterexample: a requested target charge current of 1800001 µA
is accepted by the driver (return 0, ceiling updated), contradicting
the claim that values above 1800000 µA or off the 100 mA grid fail
with an invalid-argument error. -/
theorem set_current_max_1800001_counterexample :
    (prop_set_current_max ⟨Health.good, 55, 2000000, 300000, 0, 0⟩
        ⟨some 0, some 32, some 2000, some 55, some 0, some 0, some 0, some 0⟩
        1800001).2.2 = 0 ∧
    (prop_set_current_max ⟨Health.good, 55, 2000000, 300000, 0, 0⟩
        ⟨some 0, some 32, some 2000, some 55, some 0, some 0, some 0, some 0⟩
        1800001).1.chargeUserImax = 1800001 := by decide

/-- C5 (amended): a write of the target-charge-current property fails
with `-EINVAL` and leaves the user ceiling unchanged exactly when the
requested value is below 300000 µA or at least 1900000 µA; every value
in [300000, 1899999] µA — including values that are not on a 100 mA
step and values in (1800000, 1899999] — is accepted: the ceiling is
updated and `axp20x_battery_chg_reconfig` is run. -/
theorem set_current_max_contract (p : Driver) (d : Device) (v : Int) :
    ((v < 300000 ∨ 1900000 ≤ v) →
      prop_set_current_max p d v = (p, d, -EINVAL)) ∧
    (300000 ≤ v → v < 1900000 →
      prop_set_current_max p d v =
        ({ p with chargeUserImax := v },
         (axp20x_battery_chg_reconfig { p with chargeUserImax := v } d).device,
         0)) := by
  constructor
  · intro hv
    rcases hv with hlo | hhi
    · simp only [prop_set_current_max]
      split_ifs with hgt
      · rfl
      · rfl
    · simp only [prop_set_current_max]
      have hgt : Int.tdiv (v - 300000) 100000 > 15 := by
        rw [Int.tdiv_eq_ediv (by omega) (by omega)]
        omega
      rw [if_pos hgt]
  · intro h1 h2
    simp only [prop_set_current_max]
    have hle : ¬ Int.tdiv (v - 300000) 100000 > 15 := by
      rw [Int.tdiv_eq_ediv (by omega) (by omega)]
      omega
    rw [if_neg hle, if_neg (by omega)]

/-- C5 witness: 1800000 µA is accepted, updating the ceiling and
running the reconfiguration. -/
theorem set_current_max_contract_witness :
    (300000 : Int) ≤ 1800000 ∧
    prop_set_current_max ⟨Health.good, 55, 2000000, 300000, 0, 0⟩
        ⟨some 0, some 32, some 2000, some 55, some 0, some 0, some 0, some 0⟩
        1800000 =
      (⟨Health.good, 55, 2000000, 1800000, 0, 0⟩,
       (axp20x_battery_chg_reconfig ⟨Health.good, 55, 2000000, 1800000, 0, 0⟩
         ⟨some 0, some 32, some 2000, some 55, some 0, some 0, some 0,
          some 0⟩).device,
       0) :=
  ⟨by decide,
   (set_current_max_contract ⟨Health.good, 55, 2000000, 300000, 0, 0⟩
      ⟨some 0, some 32, some 2000, some 55, some 0, some 0, some 0, some 0⟩
      1800000).2 (by decide) (by decide)⟩

/-- C1 counterexample: with the battery present, a raw reading of 1000
(1.1 MµV, below the 2.0 V dead threshold) and a configured temperature
range [1500, 2000] that the same reading violates on the low side, the
poll ends with health Cold, not Dead. -/
theorem poll_dead_priority_counterexample :
    ((1000 : Int) * 1100 < 2000000) ∧ ((1000 : Int) < 1500) ∧
    (axp20x_battery_poll ⟨Health.good, 0, 0, 300000, 1500, 2000⟩
        ⟨some 0, some 32, some 1000, some 0, some 0, some 0, some 0,
         some 0⟩).driver.health = Health.cold ∧
    Health.cold ≠ Health.dead := by decide

/-- C1 (amended): in a poll cycle with the battery present, the
dead-voltage condition true, and a configured temperature bound
violated, the resulting health is Cold (below the lower bound) or
Overheat (above the upper bound) — the temperature checks run after the
dead check and override it, so Dead survives only when no configured
temperature bound is violated. -/
theorem poll_temp_overrides_dead (p : Driver) (d : Device) (m v : Nat)
    (hm : d.pwrOpMode = some m)
    (hpres : m &&& AXP20X_PWR_OP_BATT_PRESENT ≠ 0)
    (hv : d.battV = some v)
    (hdead : (v : Int) * 1100 < 2000000)
    (hcfg : p.tbattMin ≠ 0 ∨ p.tbattMax ≠ 0)
    (hout : (v : Int) < p.tbattMin ∨ (v : Int) > p.tbattMax) :
    (axp20x_battery_poll p d).driver.health =
      (if (v : Int) < p.tbattMin then Health.cold else Health.overheat) := by
  simp only [axp20x_battery_poll, hm, hv]
  rw [if_neg hpres, if_pos hdead, if_pos hcfg, pollOut_driver_health]
  by_cases hlt : (v : Int) < p.tbattMin
  · simp [hlt]
  · rcases hout with h | h
    · exact absurd h hlt
    · simp [hlt, h]

/-- C1 witness: the Cold outcome of the amended claim at raw reading
1000 against the bound 1500. -/
theorem poll_temp_overrides_dead_witness :
    ((1000 : Nat) : Int) * 1100 < 2000000 ∧
    (axp20x_battery_poll ⟨Health.good, 0, 0, 300000, 1500, 2000⟩
        ⟨some 0, some 32, some 1000, some 0, some 0, some 0, some 0,
         some 0⟩).driver.health =
      (if ((1000 : Nat) : Int) < (1500 : Int) then Health.cold
       else Health.overheat) :=
  ⟨by decide,
   poll_temp_overrides_dead ⟨Health.good, 0, 0, 300000, 1500, 2000⟩
     ⟨some 0, some 32, some 1000, some 0, some 0, some 0, some 0, some 0⟩
     32 1000 rfl (by decide) rfl (by decide) (by decide) (by decide)⟩

/-- C2 counterexample: battery present, previous percent 55, gauge
register read fails — the stored percent becomes 0, not the previous
sample. -/
theorem poll_percent_reset_counterexample :
    (axp20x_battery_poll ⟨Health.good, 55, 0, 300000, 0, 0⟩
        ⟨some 0, some 32, some 2000, none, some 0, some 0, some 0,
         some 0⟩).driver.percent = 0 ∧
    (0 : Nat) ≠ 55 := by decide

/-- C2 (amended): in every poll cycle where the battery is present and
the gauge percent register read fails, the stored percent is set to 0 —
the same value as when the battery is absent — not left at the previous
sample. -/
theorem poll_percent_zero_on_gauge_fail (p : Driver) (d : Device) (m : Nat)
    (hm : d.pwrOpMode = some m)
    (hpres : m &&& AXP20X_PWR_OP_BATT_PRESENT ≠ 0)
    (hfg : d.fgRes = none) :
    (axp20x_battery_poll p d).driver.percent = 0 := by
  simp only [axp20x_battery_poll, hm, hfg]
  rw [if_neg hpres, pollOut_driver_percent]

/-- C2 witness: the amended claim at a concrete state with previous
percent 55 and a failing gauge read. -/
theorem poll_percent_zero_on_gauge_fail_witness :
    (32 : Nat) &&& AXP20X_PWR_OP_BATT_PRESENT ≠ 0 ∧
    (axp20x_battery_poll ⟨Health.good, 55, 0, 300000, 0, 0⟩
        ⟨some 0, some 32, some 2000, none, some 0, some 0, some 0,
         some 0⟩).driver.percent = 0 :=
  ⟨by decide,
   poll_percent_zero_on_gauge_fail ⟨Health.good, 55, 0, 300000, 0, 0⟩
     ⟨some 0, some 32, some 2000, none, some 0, some 0, some 0, some 0⟩
     32 rfl (by decide) rfl⟩

/-- C6 counterexample: the charging handler leaves both cached fields
(and the device) unchanged yet raises a notification, contradicting
the claim that a notification is raised iff health or percent
changed. -/
theorem handler_spurious_notify_counterexample :
    handleEvent BattEvent.charging ⟨Health.good, 55, 2000000, 300000, 0, 0⟩
        ⟨some 0, some 32, some 2000, some 55, some 0, some 0, some 0, some 0⟩ =
      ⟨⟨Health.good, 55, 2000000, 300000, 0, 0⟩,
       ⟨some 0, some 32, some 2000, some 55, some 0, some 0, some 0, some 0⟩,
       true⟩ := by decide

/-- C6 (amended): the poll cycle mutates health and percent only as a
pair and notifies iff at least one of them differs from the previous
sample; the interrupt handlers never touch percent and notify
unconditionally, even when nothing changed. -/
theorem poll_notify_iff_pair_changed (p : Driver) (d : Device) (e : BattEvent) :
    ((axp20x_battery_poll p d).notified = true ↔
      ((axp20x_battery_poll p d).driver.health ≠ p.health ∨
       (axp20x_battery_poll p d).driver.percent ≠ p.percent)) ∧
    (handleEvent e p d).notified = true ∧
    (handleEvent e p d).driver.percent = p.percent := by
  refine ⟨?_, ?_, ?_⟩
  · cases hpm : d.pwrOpMode with
    | none => simp [axp20x_battery_poll, hpm]
    | some m =>
      simp only [axp20x_battery_poll, hpm]
      by_cases hpres : m &&& AXP20X_PWR_OP_BATT_PRESENT = 0
      · rw [if_pos hpres]
        exact pollOut_notified_iff p Health.unknown 0
      · rw [if_neg hpres]
        exact pollOut_notified_iff p _ _
  · cases e <;> rfl
  · cases e <;> rfl

/-- C8: for every 12-bit raw register value, the decoded battery
voltage is exactly raw × 1100 µV, the decoded charge and discharge
current exactly raw × 500 µA, and the decoded temperature-sensor
voltage exactly raw × 800 µV — lossless integer multiplication. -/
theorem decode_scale_factors (r : Nat) (d : Device) (_h12 : r < 4096) :
    (d.battV = some r → prop_get_voltage_now d = some ((r : Int) * 1100)) ∧
    (d.battV = some r → prop_get_temp d = some ((r : Int) * 800)) ∧
    (∀ st, d.pwrInputStatus = some st →
      st &&& AXP20X_PWR_STATUS_BAT_CHARGING ≠ 0 → d.battChrgI = some r →
      prop_get_current_now d = some ((r : Int) * 500)) ∧
    (∀ st, d.pwrInputStatus = some st →
      st &&& AXP20X_PWR_STATUS_BAT_CHARGING = 0 → d.battDischrgI = some r →
      prop_get_current_now d = some ((r : Int) * 500)) := by
  refine ⟨fun hv => ?_, fun hv => ?_, fun st hst hbit hcr => ?_,
    fun st hst hbit hcr => ?_⟩
  · simp [prop_get_voltage_now, hv]
  · simp [prop_get_temp, axp20x_battery_uv_to_temp, hv]
  · simp [prop_get_current_now, hst, hbit, hcr]
  · simp [prop_get_current_now, hst, hbit, hcr]

/-- C8 witness: the three decodings at the largest 12-bit raw value
4095 (charging case for the current decoding). -/
theorem decode_scale_factors_witness :
    (4095 : Nat) < 4096 ∧
    prop_get_voltage_now
        ⟨some 4, some 32, some 4095, some 0, some 0, some 0, some 4095,
         some 0⟩ = some (((4095 : Nat) : Int) * 1100) ∧
    prop_get_temp
        ⟨some 4, some 32, some 4095, some 0, some 0, some 0, some 4095,
         some 0⟩ = some (((4095 : Nat) : Int) * 800) ∧
    prop_get_current_now
        ⟨some 4, some 32, some 4095, some 0, some 0, some 0, some 4095,
         some 0⟩ = some (((4095 : Nat) : Int) * 500) :=
  ⟨by decide,
   (decode_scale_factors 4095
     ⟨some 4, some 32, some 4095, some 0, some 0, some 0, some 4095, some 0⟩
     (by decide)).1 rfl,
   (decode_scale_factors 4095
     ⟨some 4, some 32, some 4095, some 0, some 0, some 0, some 4095, some 0⟩
     (by decide)).2.1 rfl,
   (decode_scale_factors 4095
     ⟨some 4, some 32, some 4095, some 0, some 0, some 0, some 4095, some 0⟩
     (by decide)).2.2.1 4 rfl (by decide) rfl⟩

/-- C10: with the charge-control register readable, a write of the
maximum-design-voltage property succeeds exactly for 4100000, 4150000
and 4200000 µV, writing the matching target-voltage field; every other
value — 4360000 µV included, although the register can represent it and
the read path reports it — fails with `-EINVAL` and leaves the device
untouched. -/
theorem voltage_max_design_write_contract (d : Device) (c : Nat) (v : Int)
    (hc : d.chrgCtrl1 = some c) :
    (v = 4100000 →
      prop_set_voltage_max_design d v =
        ({ d with chrgCtrl1 := some (updateBits c AXP20X_CHRG_CTRL1_TGT_VOLT
             AXP20X_CHRG_CTRL1_TGT_4_1V) }, 0)) ∧
    (v = 4150000 →
      prop_set_voltage_max_design d v =
        ({ d with chrgCtrl1 := some (updateBits c AXP20X_CHRG_CTRL1_TGT_VOLT
             AXP20X_CHRG_CTRL1_TGT_4_15V) }, 0)) ∧
    (v = 4200000 →
      prop_set_voltage_max_design d v =
        ({ d with chrgCtrl1 := some (updateBits c AXP20X_CHRG_CTRL1_TGT_VOLT
             AXP20X_CHRG_CTRL1_TGT_4_2V) }, 0)) ∧
    (v ≠ 4100000 → v ≠ 4150000 → v ≠ 4200000 →
      prop_set_voltage_max_design d v = (d, -EINVAL)) ∧
    prop_get_voltage_max_design
        { d with chrgCtrl1 := some AXP20X_CHRG_CTRL1_TGT_4_36V } =
      some 4360000 := by
  refine ⟨fun hv => ?_, fun hv => ?_, fun hv => ?_, fun h1 h2 h3 => ?_, ?_⟩
  · subst hv
    simp [prop_set_voltage_max_design, hc, regmapUpdateBits, regmapUpdateBitsRet]
  · subst hv
    simp [prop_set_voltage_max_design, hc, regmapUpdateBits, regmapUpdateBitsRet]
  · subst hv
    simp [prop_set_voltage_max_design, hc, regmapUpdateBits, regmapUpdateBitsRet]
  · simp only [prop_set_voltage_max_design]
    rw [if_neg h1, if_neg h2, if_neg h3]
  · rfl

/-- C10 witness: writing 4100000 µV to a device whose charge-control
register reads 0 succeeds and selects the 4.1 V field. -/
theorem voltage_max_design_write_contract_witness :
    prop_set_voltage_max_design
        ⟨some 0, some 0, some 0, some 0, some 0, some 0, some 0, some 0⟩
        4100000 =
      (⟨some 0, some 0, some 0, some 0, some 0, some 0, some 0, some 0⟩, 0) :=
  (voltage_max_design_write_contract
    ⟨some 0, some 0, some 0, some 0, some 0, some 0, some 0, some 0⟩
    0 4100000 rfl).1 rfl

end Axp20x
